import Mathlib

/-
Verification of the VE.Direct-to-MQTT bridge (src/vedirect_to_mqtt.py),
checksum-aware variant. The byte-stream loop of `main` is embedded as a
step function over an explicit loop state; serial reads and MQTT publishes
become the inputs and outputs of that step function. UTF-8 decoding of a
raw line (raw.decode with errors ignored) is supplied alongside the raw
bytes as an oracle, since byte-to-text decoding is outside the embedding;
the loop only ever inspects the decoded text, while the checksum only ever
inspects the raw bytes, exactly as in the source.
-/

/-- ASCII lowercasing of one character; models Python str.lower on the
ASCII-only keys the program compares (src line 116 uses key.lower()). -/
def charLower (c : Char) : Char :=
  if 'A' ≤ c && c ≤ 'Z' then Char.ofNat (c.toNat + 32) else c

/-- Python str.lower applied to a key (ASCII range). -/
def pyLower (s : String) : String := String.mk (s.data.map charLower)

/-- The whitespace set of Python str.strip: tab, newline, vertical tab,
form feed, carriage return, space. -/
def isPySpace (c : Char) : Bool :=
  c.toNat = 9 || c.toNat = 10 || c.toNat = 11 || c.toNat = 12 ||
  c.toNat = 13 || c.toNat = 32

/-- Python str.strip(): remove leading and trailing whitespace. -/
def pyStrip (s : String) : String :=
  String.mk (((s.data.dropWhile isPySpace).reverse.dropWhile isPySpace).reverse)

/-- src line 22: keys holding one of these characters are removed. -/
def FORBIDDEN_KEY_CHARS : List Char := ['#', '*']

/-- src lines 62-63: any(ch in key for ch in FORBIDDEN_KEY_CHARS); a
one-character substring test is character membership. -/
def is_forbidden_key (key : String) : Bool :=
  FORBIDDEN_KEY_CHARS.any (fun ch => key.data.contains ch)

/-- Split a character list at the first tab, if any. Returning none models
the Python test "\t" not in line; returning some (k, v) models
line.split("\t", 1) = [k, v]. -/
def splitFirstTab : List Char → Option (List Char × List Char)
  | [] => none
  | c :: cs =>
    if c = '\t' then some ([], cs)
    else
      match splitFirstTab cs with
      | none => none
      | some (k, v) => some (c :: k, v)

/-- src parse_kv, lines 55-60: None (modelled as none) when the line has no
tab, otherwise split on the first tab and strip both parts. -/
def parse_kv (line : String) : Option (String × String) :=
  match splitFirstTab line.data with
  | none => none
  | some (k, v) => some (pyStrip (String.mk k), pyStrip (String.mk v))

/-- src line 116: key.lower() == "checksum", the frame-completion test. -/
def endsFrame (key : String) : Bool := pyLower key == "checksum"

/-- Payload of one MQTT publish: the source passes field values as strings
and the timestamp as an integer. -/
inductive Payload
  | str (s : String)
  | num (n : Nat)
  deriving DecidableEq, Repr

/-- One client.publish call: topic, payload, retain flag. -/
structure Msg where
  topic : String
  payload : Payload
  retain : Bool
  deriving DecidableEq, Repr

/-- The for-loop of publish_frame (src lines 67-69): one message per field,
topic ROOT/k where ROOT models the configured topic root (TOPIC_... env),
payload the field's value, retain the configured flag. -/
def publishFields (root : String) (retain : Bool) : List (String × String) → List Msg
  | [] => []
  | (k, v) :: rest =>
    Msg.mk (root ++ "/" ++ k) (Payload.str v) retain :: publishFields root retain rest

/-- src publish_frame, lines 65-70: every field, then one message to
ROOT/_ts with the current Unix time in seconds. -/
def publish_frame (root : String) (retain : Bool)
    (frame : List (String × String)) (now : Nat) : List Msg :=
  publishFields root retain frame ++ [Msg.mk (root ++ "/_ts") (Payload.num now) retain]

/-- Python dict assignment frame_kv[key] = val on an insertion-ordered
dict: overwrite in place when the key exists, else append. -/
def dictInsert (d : List (String × String)) (k v : String) : List (String × String) :=
  if d.any (fun p => p.1 == k) then
    d.map (fun p => if p.1 == k then (k, v) else p)
  else d ++ [(k, v)]

/-- The mutable state of main's loop (src lines 90-91): frame_bytes and
frame_kv. Bytes are naturals below 256; the embedding never needs the
bound, the checksum is taken mod 256. -/
structure LoopState where
  frameBytes : List Nat
  frameKV : List (String × String)
  deriving DecidableEq, Repr

/-- Both accumulators empty: the assembler's EMPTY state. -/
def emptyState : LoopState := LoopState.mk [] []

/-- One input to the loop body: a raw line from ser.readline() together
with its text decoding (decode utf-8, errors ignored — it never raises),
or a SerialException while reading. -/
inductive Event
  | data (raw : List Nat) (decoded : String)
  | fault

/-- The try-body of main's loop (src lines 95-139) on one read line.
Mirrors the source order: skip an empty read; extend frame_bytes with every
raw byte first; strip the decoded text and skip if empty; skip if parse_kv
yields no record; on the checksum sentinel, drop the frame when the byte
sum is non-zero mod 256 (sum & 0xFF in the source equals mod 256 on
naturals), else publish the filtered mapping and reset; otherwise store the
key/value pair. Returns the next state and the publishes of this
iteration. -/
def stepData (root : String) (retain : Bool) (now : Nat) (s : LoopState)
    (raw : List Nat) (decoded : String) : LoopState × List Msg :=
  if raw = [] then (s, [])
  else if pyStrip decoded = "" then (LoopState.mk (s.frameBytes ++ raw) s.frameKV, [])
  else
    match parse_kv (pyStrip decoded) with
    | none => (LoopState.mk (s.frameBytes ++ raw) s.frameKV, [])
    | some (key, val) =>
      if endsFrame key then
        if (s.frameBytes ++ raw).sum % 256 ≠ 0 then (emptyState, [])
        else
          (emptyState,
            publish_frame root retain
              (s.frameKV.filter (fun p => !is_forbidden_key p.1)) now)
      else (LoopState.mk (s.frameBytes ++ raw) (dictInsert s.frameKV key val), [])

/-- src line 143: seconds slept before reopening the serial port after a
SerialException. -/
def SERIAL_REOPEN_DELAY : Nat := 3

/-- One loop iteration: the try-body on a read line, or the SerialException
handler (src lines 141-147), which clears both buffers, reopens the port
and continues — it never publishes and never terminates the loop. -/
def step (root : String) (retain : Bool) (now : Nat) (s : LoopState) :
    Event → LoopState × List Msg
  | Event.data raw dec => stepData root retain now s raw dec
  | Event.fault => (emptyState, [])

/-- Modelled from the spec: the maximum record count of the runaway guard
(spec 4.2, default 128). The guard lives in the repository's idle/runaway
variant, whose file is not under src/; src holds only the checksum
variant. -/
def MAX_FRAME_RECORDS : Nat := 128

/-- Modelled from the spec: the Pending Frame of the runaway-guard
variant — the field mapping plus a count of records accumulated since the
frame began. -/
structure GuardState where
  kv : List (String × String)
  count : Nat
  deriving DecidableEq, Repr

/-- Modelled from the spec: the EMPTY assembler state of the runaway-guard
variant. -/
def emptyGuard : GuardState := GuardState.mk [] 0

/-- Modelled from the spec: the effect of one accepted Record on the
runaway-guard variant's assembler (spec 4.2): a sentinel ends the frame and
returns to EMPTY; any other record updates the mapping and increments the
count, and if the count then exceeds the configured maximum the Pending
Frame is discarded and the assembler returns to EMPTY. -/
def guardStep (maxRecords : Nat) (s : GuardState) (key val : String) : GuardState :=
  if endsFrame key then emptyGuard
  else
    if maxRecords < s.count + 1 then emptyGuard
    else GuardState.mk (dictInsert s.kv key val) (s.count + 1)

/-- Modelled from the spec: the runaway-guard assembler run over a list of
accepted Records. -/
def guardRun (maxRecords : Nat) (s : GuardState) : List (String × String) → GuardState
  | [] => s
  | (k, v) :: rest => guardRun maxRecords (guardStep maxRecords s k v) rest

/-- parse_kv of an empty line is no record. -/
theorem parse_kv_empty : parse_kv "" = none := rfl

/-- A line that parses into a record is non-empty after stripping. -/
theorem strip_ne_empty_of_parse {dec key val : String}
    (hkv : parse_kv (pyStrip dec) = some (key, val)) : pyStrip dec ≠ "" := by
  intro he
  rw [he, parse_kv_empty] at hkv
  exact Option.noConfusion hkv

/-- splitFirstTab finds no split exactly when the list holds no tab. -/
theorem splitFirstTab_eq_none (l : List Char) :
    splitFirstTab l = none ↔ '\t' ∉ l := by
  induction l with
  | nil => simp [splitFirstTab]
  | cons c cs ih =>
    by_cases hc : c = '\t'
    · subst hc; simp [splitFirstTab]
    · rw [splitFirstTab, if_neg hc]
      cases h : splitFirstTab cs with
      | none =>
        refine Iff.intro (fun _ => ?_) (fun _ => rfl)
        simp only [List.mem_cons, not_or]
        exact ⟨fun he => hc he.symm, ih.mp h⟩
      | some kv =>
        obtain ⟨k, v⟩ := kv
        have htab : '\t' ∈ cs := by
          by_contra hn
          rw [ih.mpr hn] at h
          exact Option.noConfusion h
        simp [htab]

/-- splitFirstTab splits at the first tab. -/
theorem splitFirstTab_append (pre post : List Char) (h : '\t' ∉ pre) :
    splitFirstTab (pre ++ '\t' :: post) = some (pre, post) := by
  induction pre with
  | nil => simp [splitFirstTab]
  | cons c cs ih =>
    have hc : c ≠ '\t' := fun e => h (List.mem_cons.mpr (Or.inl e.symm))
    have hcs : '\t' ∉ cs := fun m => h (List.mem_cons_of_mem c m)
    rw [List.cons_append, splitFirstTab, if_neg hc, ih hcs]

/-- Evaluation of the loop body on a sentinel line: only the checksum test
decides between discard and publish, and the checksum covers the bytes of
the sentinel line itself. -/
theorem stepData_sentinel (root : String) (retain : Bool) (now : Nat) (s : LoopState)
    (raw : List Nat) (dec : String) (key val : String)
    (hraw : raw ≠ []) (hkv : parse_kv (pyStrip dec) = some (key, val))
    (hsent : endsFrame key = true) :
    stepData root retain now s raw dec =
      if (s.frameBytes ++ raw).sum % 256 ≠ 0 then (emptyState, [])
      else (emptyState,
        publish_frame root retain (s.frameKV.filter (fun p => !is_forbidden_key p.1)) now) := by
  have hline : pyStrip dec ≠ "" := strip_ne_empty_of_parse hkv
  simp only [stepData, if_neg hraw, if_neg hline, hkv, hsent, if_true]

/-- Evaluation of the loop body on an ordinary record line: the pair is
stored, the raw bytes are appended, nothing is published. -/
theorem stepData_record (root : String) (retain : Bool) (now : Nat) (s : LoopState)
    (raw : List Nat) (dec : String) (key val : String)
    (hraw : raw ≠ []) (hkv : parse_kv (pyStrip dec) = some (key, val))
    (hsent : endsFrame key = false) :
    stepData root retain now s raw dec =
      (LoopState.mk (s.frameBytes ++ raw) (dictInsert s.frameKV key val), []) := by
  have hline : pyStrip dec ≠ "" := strip_ne_empty_of_parse hkv
  simp only [stepData, if_neg hraw, if_neg hline, hkv, hsent]
  simp

/-- Evaluation of the loop body on a line that yields no record: the raw
bytes are still appended, the mapping is untouched, nothing is published. -/
theorem stepData_skip (root : String) (retain : Bool) (now : Nat) (s : LoopState)
    (raw : List Nat) (dec : String)
    (hraw : raw ≠ []) (hnone : parse_kv (pyStrip dec) = none) :
    stepData root retain now s raw dec =
      (LoopState.mk (s.frameBytes ++ raw) s.frameKV, []) := by
  by_cases hline : pyStrip dec = ""
  · simp only [stepData, if_neg hraw, if_pos hline]
  · simp only [stepData, if_neg hraw, if_neg hline, hnone]

/-- C1: a frame terminated by the checksum sentinel is accepted and
published if and only if the sum of every raw byte accumulated since the
frame began — the sentinel line's own bytes included — is zero modulo 256;
a non-zero residue yields zero publishes and discards the whole field
mapping. -/
theorem checksum_gate_c1 (root : String) (retain : Bool) (now : Nat) (s : LoopState)
    (raw : List Nat) (dec : String) (key val : String)
    (hraw : raw ≠ []) (hkv : parse_kv (pyStrip dec) = some (key, val))
    (hsent : endsFrame key = true) :
    ((step root retain now s (Event.data raw dec)).2 ≠ [] ↔
      (s.frameBytes ++ raw).sum % 256 = 0)
    ∧ ((s.frameBytes ++ raw).sum % 256 = 0 →
        step root retain now s (Event.data raw dec)
          = (emptyState,
              publish_frame root retain
                (s.frameKV.filter (fun p => !is_forbidden_key p.1)) now))
    ∧ ((s.frameBytes ++ raw).sum % 256 ≠ 0 →
        step root retain now s (Event.data raw dec) = (emptyState, [])) := by
  have h : step root retain now s (Event.data raw dec)
      = stepData root retain now s raw dec := rfl
  rw [h, stepData_sentinel root retain now s raw dec key val hraw hkv hsent]
  by_cases hsum : (s.frameBytes ++ raw).sum % 256 = 0
  · rw [if_neg (not_not_intro hsum)]
    refine ⟨Iff.intro (fun _ => hsum) (fun _ => ?_), fun _ => rfl, fun hc => absurd hsum hc⟩
    simp [publish_frame]
  · rw [if_pos hsum]
    exact ⟨Iff.intro (fun hne => absurd rfl hne) (fun h0 => absurd h0 hsum),
      fun hc => absurd hc hsum, fun _ => rfl⟩

/-- C1 witness: a concrete valid frame (byte sum 1024) is published. -/
theorem checksum_gate_c1_witness :
    step "victron/mppt" true 1700000000 (LoopState.mk [121] [("V", "12800")])
        (Event.data [67, 104, 101, 99, 107, 115, 117, 109, 9, 65, 10] "Checksum\tA\n")
      = (emptyState,
          publish_frame "victron/mppt" true
            ([("V", "12800")].filter (fun p => !is_forbidden_key p.1)) 1700000000) := by
  have h := checksum_gate_c1 "victron/mppt" true 1700000000
      (LoopState.mk [121] [("V", "12800")])
      [67, 104, 101, 99, 107, 115, 117, 109, 9, 65, 10] "Checksum\tA\n" "Checksum" "A"
      (by decide) (by decide) (by decide)
  exact h.2.1 (by decide)

/-- C2: on sentinel detection the assembler returns to EMPTY with both the
raw byte sequence and the key-value mapping cleared, whether the frame was
published or discarded. -/
theorem sentinel_resets_state_c2 (root : String) (retain : Bool) (now : Nat) (s : LoopState)
    (raw : List Nat) (dec : String) (key val : String)
    (hraw : raw ≠ []) (hkv : parse_kv (pyStrip dec) = some (key, val))
    (hsent : endsFrame key = true) :
    (step root retain now s (Event.data raw dec)).1 = emptyState
    ∧ (step root retain now s (Event.data raw dec)).1.frameBytes = []
    ∧ (step root retain now s (Event.data raw dec)).1.frameKV = [] := by
  have h : step root retain now s (Event.data raw dec)
      = stepData root retain now s raw dec := rfl
  rw [h, stepData_sentinel root retain now s raw dec key val hraw hkv hsent]
  by_cases hsum : (s.frameBytes ++ raw).sum % 256 ≠ 0
  · rw [if_pos hsum]; exact ⟨rfl, rfl, rfl⟩
  · rw [if_neg hsum]; exact ⟨rfl, rfl, rfl⟩

/-- C2 witness: a concrete corrupt frame (byte sum 904, residue 136) still
returns the assembler to EMPTY. -/
theorem sentinel_resets_state_c2_witness :
    (step "victron/mppt" true 1700000000 (LoopState.mk [1] [("V", "1")])
        (Event.data [67, 104, 101, 99, 107, 115, 117, 109, 9, 65, 10] "Checksum\tA\n")).1
      = emptyState := by
  have h := sentinel_resets_state_c2 "victron/mppt" true 1700000000
      (LoopState.mk [1] [("V", "1")])
      [67, 104, 101, 99, 107, 115, 117, 109, 9, 65, 10] "Checksum\tA\n" "Checksum" "A"
      (by decide) (by decide) (by decide)
  exact h.1

/-- C3: no field whose key holds a reserved wildcard character is ever
published — an accepted frame publishes exactly the filtered mapping, whose
members all have non-forbidden keys — while at accumulation time such a
field is still stored unfiltered in the pending mapping. -/
theorem forbidden_keys_filtered_c3 (root : String) (retain : Bool) (now : Nat)
    (s : LoopState) (raw : List Nat) (dec : String) (key val : String)
    (hraw : raw ≠ []) (hkv : parse_kv (pyStrip dec) = some (key, val)) :
    (endsFrame key = true →
      ((step root retain now s (Event.data raw dec)).2 = [] ∨
        (step root retain now s (Event.data raw dec)).2
          = publish_frame root retain
              (s.frameKV.filter (fun p => !is_forbidden_key p.1)) now)
      ∧ ∀ p ∈ s.frameKV.filter (fun p => !is_forbidden_key p.1),
          is_forbidden_key p.1 = false)
    ∧ (endsFrame key = false →
        (step root retain now s (Event.data raw dec)).1.frameKV
          = dictInsert s.frameKV key val
        ∧ (step root retain now s (Event.data raw dec)).2 = []) := by
  have h : step root retain now s (Event.data raw dec)
      = stepData root retain now s raw dec := rfl
  constructor
  · intro hsent
    rw [h, stepData_sentinel root retain now s raw dec key val hraw hkv hsent]
    constructor
    · by_cases hsum : (s.frameBytes ++ raw).sum % 256 ≠ 0
      · rw [if_pos hsum]; exact Or.inl rfl
      · rw [if_neg hsum]; exact Or.inr rfl
    · intro p hp
      have := List.of_mem_filter hp
      simpa using this
  · intro hsent
    rw [h, stepData_record root retain now s raw dec key val hraw hkv hsent]
    exact ⟨rfl, rfl⟩

/-- C3 witness: the reserved key SER# is still stored at accumulation
time. -/
theorem forbidden_keys_filtered_c3_witness :
    (step "victron/mppt" true 1700000000 (LoopState.mk [] [])
        (Event.data [83] "SER#\tABC123\n")).1.frameKV
      = dictInsert [] "SER#" "ABC123" := by
  have h := forbidden_keys_filtered_c3 "victron/mppt" true 1700000000
      (LoopState.mk [] []) [83] "SER#\tABC123\n" "SER#" "ABC123"
      (by decide) (by decide)
  exact (h.2 (by decide)).1

/-- C4: publishing a frame yields one message per field k, to topic
ROOT/k with the field's value, followed by one message to ROOT/_ts with
the publish-time Unix timestamp; the count is the field count plus one and
every message carries the configured retain flag. -/
theorem publish_shape_c4 (root : String) (retain : Bool)
    (frame : List (String × String)) (now : Nat) :
    publish_frame root retain frame now
      = frame.map (fun kv => Msg.mk (root ++ "/" ++ kv.1) (Payload.str kv.2) retain)
        ++ [Msg.mk (root ++ "/_ts") (Payload.num now) retain]
    ∧ (publish_frame root retain frame now).length = frame.length + 1
    ∧ ∀ m ∈ publish_frame root retain frame now, m.retain = retain := by
  have hf : ∀ fr : List (String × String),
      publishFields root retain fr
        = fr.map (fun kv => Msg.mk (root ++ "/" ++ kv.1) (Payload.str kv.2) retain) := by
    intro fr
    induction fr with
    | nil => rfl
    | cons p rest ih =>
      obtain ⟨k, v⟩ := p
      simp [publishFields, ih]
  refine ⟨by rw [publish_frame, hf], by rw [publish_frame, hf]; simp, ?_⟩
  intro m hm
  rw [publish_frame, hf] at hm
  rcases List.mem_append.mp hm with hmem | hmem
  · obtain ⟨kv, _, rfl⟩ := List.mem_map.mp hmem
    rfl
  · rw [List.mem_singleton.mp hmem]

/-- C4 witness: a concrete two-field frame yields three messages, and the
field message carries the configured retain flag. -/
theorem publish_shape_c4_witness :
    (publish_frame "victron/mppt" true [("V", "12800"), ("I", "150")] 1700000000).length = 3
    ∧ (Msg.mk "victron/mppt/V" (Payload.str "12800") true).retain = true := by
  have h := publish_shape_c4 "victron/mppt" true [("V", "12800"), ("I", "150")] 1700000000
  refine ⟨by rw [h.2.1]; decide, ?_⟩
  exact h.2.2 (Msg.mk "victron/mppt/V" (Payload.str "12800") true) (by rw [h.1]; decide)

/-- C5: in the runaway-guard assembler (modelled from the spec — the
idle/runaway variant's file is not under src/), a run from EMPTY never
leaves the record count above the configured maximum, because as soon as a
non-sentinel record pushes the count past the maximum the pending frame is
discarded and the assembler returns to EMPTY. -/
theorem runaway_guard_c5 (recs : List (String × String)) (s : GuardState)
    (key val : String) :
    (guardRun MAX_FRAME_RECORDS emptyGuard recs).count ≤ MAX_FRAME_RECORDS
    ∧ (endsFrame key = false → MAX_FRAME_RECORDS ≤ s.count →
        guardStep MAX_FRAME_RECORDS s key val = emptyGuard) := by
  constructor
  · have hinv : ∀ (l : List (String × String)) (t : GuardState),
        t.count ≤ MAX_FRAME_RECORDS →
        (guardRun MAX_FRAME_RECORDS t l).count ≤ MAX_FRAME_RECORDS := by
      intro l
      induction l with
      | nil => intro t ht; exact ht
      | cons p rest ih =>
        intro t ht
        obtain ⟨k, v⟩ := p
        rw [guardRun]
        apply ih
        by_cases hs : endsFrame k = true
        · rw [guardStep, if_pos hs]
          exact Nat.zero_le _
        · rw [guardStep, if_neg hs]
          by_cases hc : MAX_FRAME_RECORDS < t.count + 1
          · rw [if_pos hc]
            exact Nat.zero_le _
          · rw [if_neg hc]
            exact Nat.not_lt.mp hc
    exact hinv recs emptyGuard (Nat.zero_le _)
  · intro hs hc
    rw [guardStep, if_neg (by simp [hs]), if_pos (Nat.lt_succ_of_le hc)]

/-- C5 witness: two records leave the count within bound, and a full
assembler (count 128) resets on the next non-sentinel record. -/
theorem runaway_guard_c5_witness :
    (guardRun MAX_FRAME_RECORDS emptyGuard [("V", "12800"), ("I", "150")]).count
      ≤ MAX_FRAME_RECORDS
    ∧ guardStep MAX_FRAME_RECORDS (GuardState.mk [] 128) "V" "12800" = emptyGuard := by
  have h := runaway_guard_c5 [("V", "12800"), ("I", "150")]
      (GuardState.mk [] 128) "V" "12800"
  exact ⟨h.1, h.2 (by decide) (by decide)⟩

/-- C6: a record ends the frame exactly when its key equals the primary
sentinel name Checksum case-sensitively or the checksum field name
case-insensitively; no other key completes a frame. -/
theorem sentinel_condition_c6 (key : String) :
    endsFrame key = true ↔ (key = "Checksum" ∨ pyLower key = "checksum") := by
  simp only [endsFrame, beq_iff_eq]
  constructor
  · exact Or.inr
  · rintro (rfl | h)
    · decide
    · exact h

/-- C7: a line without a tab yields no record and the loop silently skips
it, leaving the mapping untouched; a line with a tab is split at the first
tab into key and value with surrounding whitespace stripped from each. -/
theorem parse_kv_contract_c7 (line : String) (root : String) (retain : Bool)
    (now : Nat) (s : LoopState) (raw : List Nat) (dec : String) :
    (parse_kv line = none ↔ '\t' ∉ line.data)
    ∧ (∀ pre post, line.data = pre ++ '\t' :: post → '\t' ∉ pre →
        parse_kv line = some (pyStrip (String.mk pre), pyStrip (String.mk post)))
    ∧ (raw ≠ [] → parse_kv (pyStrip dec) = none →
        step root retain now s (Event.data raw dec)
          = (LoopState.mk (s.frameBytes ++ raw) s.frameKV, [])) := by
  refine ⟨?_, ?_, ?_⟩
  · cases h : splitFirstTab line.data with
    | none =>
      have hn : parse_kv line = none := by simp only [parse_kv, h]
      rw [hn]
      exact Iff.intro (fun _ => (splitFirstTab_eq_none line.data).mp h) (fun _ => rfl)
    | some kv =>
      obtain ⟨k, v⟩ := kv
      have htab : '\t' ∈ line.data := by
        by_contra hn
        rw [(splitFirstTab_eq_none line.data).mpr hn] at h
        exact Option.noConfusion h
      simp only [parse_kv, h]
      exact Iff.intro (fun hc => Option.noConfusion hc) (fun hn => absurd htab hn)
  · intro pre post hdecomp hpre
    rw [parse_kv, hdecomp, splitFirstTab_append pre post hpre]
  · intro hraw hnone
    exact stepData_skip root retain now s raw dec hraw hnone

/-- C7 witness: a separator-free line is skipped with state preserved, and
a concrete tabbed line is split and trimmed. -/
theorem parse_kv_contract_c7_witness :
    parse_kv "no separator" = none
    ∧ parse_kv " a \tb c " = some (pyStrip (String.mk [' ', 'a', ' ']),
        pyStrip (String.mk ['b', ' ', 'c', ' ']))
    ∧ step "victron/mppt" true 1700000000 (LoopState.mk [7] [("V", "1")])
        (Event.data [120, 10] "x\n")
        = (LoopState.mk ([7] ++ [120, 10]) [("V", "1")], []) := by
  have h1 := parse_kv_contract_c7 "no separator" "victron/mppt" true 1700000000
      (LoopState.mk [7] [("V", "1")]) [120, 10] "x\n"
  have h2 := parse_kv_contract_c7 " a \tb c " "victron/mppt" true 1700000000
      (LoopState.mk [7] [("V", "1")]) [120, 10] "x\n"
  refine ⟨h1.1.mpr (by decide), ?_, h1.2.2 (by decide) (by decide)⟩
  exact h2.2.1 [' ', 'a', ' '] ['b', ' ', 'c', ' '] (by decide) (by decide)

/-- C8: every non-empty raw line read mid-frame contributes all of its raw
bytes to the frame's byte sequence, whether or not it decodes to a record:
a blank or separator-free line only grows the byte buffer, and an ordinary
record line grows it too while also storing its pair. -/
theorem raw_bytes_accumulate_c8 (root : String) (retain : Bool) (now : Nat)
    (s : LoopState) (raw : List Nat) (dec : String) (hraw : raw ≠ []) :
    ((pyStrip dec = "" ∨ parse_kv (pyStrip dec) = none) →
      step root retain now s (Event.data raw dec)
        = (LoopState.mk (s.frameBytes ++ raw) s.frameKV, []))
    ∧ (∀ key val, parse_kv (pyStrip dec) = some (key, val) → endsFrame key = false →
        (step root retain now s (Event.data raw dec)).1.frameBytes
          = s.frameBytes ++ raw) := by
  constructor
  · intro h
    rcases h with he | hn
    · have hn : parse_kv (pyStrip dec) = none := by rw [he]; exact parse_kv_empty
      exact stepData_skip root retain now s raw dec hraw hn
    · exact stepData_skip root retain now s raw dec hraw hn
  · intro key val hkv hsent
    have h : step root retain now s (Event.data raw dec)
        = stepData root retain now s raw dec := rfl
    rw [h, stepData_record root retain now s raw dec key val hraw hkv hsent]

/-- C8 witness: a blank line and a record line both append their raw bytes
to a concrete in-flight frame. -/
theorem raw_bytes_accumulate_c8_witness :
    step "victron/mppt" true 1700000000 (LoopState.mk [5] [("V", "1")])
        (Event.data [13, 10] "\r\n")
      = (LoopState.mk ([5] ++ [13, 10]) [("V", "1")], [])
    ∧ (step "victron/mppt" true 1700000000 (LoopState.mk [5] [("V", "1")])
        (Event.data [73, 9, 49, 10] "I\t1\n")).1.frameBytes = [5] ++ [73, 9, 49, 10] := by
  have h1 := raw_bytes_accumulate_c8 "victron/mppt" true 1700000000
      (LoopState.mk [5] [("V", "1")]) [13, 10] "\r\n" (by decide)
  have h2 := raw_bytes_accumulate_c8 "victron/mppt" true 1700000000
      (LoopState.mk [5] [("V", "1")]) [73, 9, 49, 10] "I\t1\n" (by decide)
  exact ⟨h1.1 (Or.inl (by decide)), h2.2 "I" "1" (by decide) (by decide)⟩

/-- C9: a transport fault while reading sends the loop through the
SerialException handler, which publishes nothing and forces the assembler
back to EMPTY — both the raw byte buffer and the key-value mapping of any
in-flight frame are discarded, so no stale state survives reconnection. -/
theorem transport_fault_resets_c9 (root : String) (retain : Bool) (now : Nat)
    (s : LoopState) :
    step root retain now s Event.fault = (emptyState, [])
    ∧ emptyState.frameBytes = [] ∧ emptyState.frameKV = []
    ∧ SERIAL_REOPEN_DELAY = 3 :=
  ⟨rfl, rfl, rfl, rfl⟩

/-- C10: a checksum-valid frame whose mapping is empty after filtering
still publishes exactly one message, the ROOT/_ts timestamp. -/
theorem empty_frame_timestamp_c10 (root : String) (retain : Bool) (now : Nat)
    (s : LoopState) (raw : List Nat) (dec : String) (key val : String)
    (hraw : raw ≠ []) (hkv : parse_kv (pyStrip dec) = some (key, val))
    (hsent : endsFrame key = true)
    (hsum : (s.frameBytes ++ raw).sum % 256 = 0)
    (hempty : s.frameKV.filter (fun p => !is_forbidden_key p.1) = []) :
    (step root retain now s (Event.data raw dec)).2
      = [Msg.mk (root ++ "/_ts") (Payload.num now) retain] := by
  have h : step root retain now s (Event.data raw dec)
      = stepData root retain now s raw dec := rfl
  rw [h, stepData_sentinel root retain now s raw dec key val hraw hkv hsent,
    if_neg (not_not_intro hsum), hempty]
  rfl

/-- C10 witness: a concrete valid frame holding only the reserved key SER#
publishes exactly the timestamp message. -/
theorem empty_frame_timestamp_c10_witness :
    (step "victron/mppt" true 1700000000 (LoopState.mk [121] [("SER#", "ABC123")])
        (Event.data [67, 104, 101, 99, 107, 115, 117, 109, 9, 65, 10] "Checksum\tA\n")).2
      = [Msg.mk ("victron/mppt" ++ "/_ts") (Payload.num 1700000000) true] :=
  empty_frame_timestamp_c10 "victron/mppt" true 1700000000
    (LoopState.mk [121] [("SER#", "ABC123")])
    [67, 104, 101, 99, 107, 115, 117, 109, 9, 65, 10] "Checksum\tA\n" "Checksum" "A"
    (by decide) (by decide) (by decide) (by decide) (by decide)
